import Mathlib

/-!
# ZerePy connection adapters: action registry and dispatch, shallowly embedded

This file embeds the data model and operations of the three connection
adapters in `src/connections/` (`discord_connection.py`,
`eternalai_connection.py`, `github_connection.py`) and proves properties of
the action-registry/dispatch contract.

Python values that flow through the dispatcher are modelled by the tagged
type `Value`; argument mappings (Python `dict`) by association lists with
first-match lookup; exceptions by explicit error results.  The shared base
module `src/connections/base_connection.py` (defining `ActionParameter`,
`Action` and `Action.validate_params`) is not among the provided sources;
its validation behaviour is modelled from the spec where noted.
-/

set_option autoImplicit false
set_option linter.unusedVariables false

namespace ZerePy

/-- Expected value kind of a parameter, as Python type objects `str`, `int`,
`bool` used in the adapters' `ActionParameter(...)` declarations. -/
inductive PKind where
  | str
  | int
  | bool
deriving DecidableEq, Repr

/-- Runtime values supplied by a caller, a tagged model of the Python values
the adapters inspect (`str`, `int`, `bool`, `None`). -/
inductive Value where
  | vStr (s : String)
  | vInt (n : Int)
  | vBool (b : Bool)
  | vNone
deriving DecidableEq, Repr

/-- Python `isinstance(v, t)` for the kinds above.  Note `bool` is a subtype
of `int` in Python, so a boolean is accepted where an integer is requested
(the spec's duck-typing note in section 4.1). -/
def isinst : Value → PKind → Bool
  | .vStr _, .str => true
  | .vInt _, .int => true
  | .vBool _, .int => true
  | .vBool _, .bool => true
  | _, _ => false

/-- `ActionParameter(name, required, type, description)` from
`base_connection.py` as instantiated by the three adapters. -/
structure ActionParameter where
  name : String
  required : Bool
  type : PKind
  description : String
deriving DecidableEq, Repr

/-- `Action(name, parameters, description)` from `base_connection.py` as
instantiated by the three adapters. -/
structure Action where
  name : String
  parameters : List ActionParameter
  description : String
deriving DecidableEq, Repr

/-- A Python `dict` keyed by strings, as an association list; lookup finds
the first matching key. -/
abbrev Args := List (String × Value)

/-- Dictionary lookup: `d[k]` / `k in d`, first occurrence wins. -/
def lookupKey {α : Type} : List (String × α) → String → Option α
  | [], _ => none
  | (k, v) :: rest, key => if k = key then some v else lookupKey rest key

/-- Modelled from the spec: the check `Action.validate_params` performs for a
single declared parameter.  `Action.validate_params` lives in
`src/connections/base_connection.py`, which is not among the provided
sources; per spec sections 4.1 and 4.2: a required parameter absent from the
arguments yields one failure message naming it; a present parameter whose
runtime type is incompatible with the declared kind yields one failure
message naming it; an absent optional parameter yields nothing. -/
def checkParam (p : ActionParameter) (args : Args) : Option String :=
  match lookupKey args p.name with
  | none =>
      if p.required then some ("Missing required parameter: " ++ p.name)
      else none
  | some v =>
      if isinst v p.type then none
      else some ("Invalid type for parameter: " ++ p.name)

/-- Modelled from the spec (sections 4.1, 4.2): validate a caller-supplied
argument mapping against all declared parameters, producing failure messages
in declaration order; keys beyond the declared parameters are not examined. -/
def Action.validate_params (a : Action) (args : Args) : List String :=
  a.parameters.filterMap (fun p => checkParam p args)

/-! ## Registered actions of each adapter (from `register_actions`) -/

/-- `discord_connection.py`, `register_actions`: the `"read-messages"` entry. -/
def discordReadMessages : Action :=
  { name := "read-messages"
    parameters := [
      { name := "channel_id", required := true, type := .str
        description := "The channel id to get messages from" },
      { name := "count", required := false, type := .int
        description := "Number of messages to retrieve" }]
    description := "Get the latest messages from a channel" }

/-- `discord_connection.py`, `register_actions`: the
`"read-mentioned-messages"` entry. -/
def discordReadMentionedMessages : Action :=
  { name := "read-mentioned-messages"
    parameters := [
      { name := "channel_id", required := true, type := .str
        description := "The channel id to get messages from" },
      { name := "count", required := false, type := .int
        description := "Number of messages to retrieve" }]
    description := "Get the latest messages that mention the bot" }

/-- `discord_connection.py`, `register_actions`: the `"post-message"` entry. -/
def discordPostMessage : Action :=
  { name := "post-message"
    parameters := [
      { name := "channel_id", required := true, type := .str
        description := "The channel id for the message to be posted in" },
      { name := "message", required := true, type := .str
        description := "Text content of the message" }]
    description := "Post a new message" }

/-- `discord_connection.py`, `register_actions`: the `"reply-to-message"`
entry. -/
def discordReplyToMessage : Action :=
  { name := "reply-to-message"
    parameters := [
      { name := "channel_id", required := true, type := .str
        description := "The channel id to get messages from" },
      { name := "message_id", required := true, type := .str
        description := "ID of the message to reply to" },
      { name := "message", required := true, type := .str
        description := "Reply message content" }]
    description := "Reply to an existing message" }

/-- `discord_connection.py`, `register_actions`: the `"react-to-message"`
entry. -/
def discordReactToMessage : Action :=
  { name := "react-to-message"
    parameters := [
      { name := "channel_id", required := true, type := .str
        description := "The channel id for the message to be posted in" },
      { name := "message_id", required := true, type := .str
        description := "ID of the message to reply to" },
      { name := "emoji_name", required := false, type := .str
        description := "Name of the emoji to put on the message" }]
    description := "Post a new message" }

/-- `discord_connection.py`, `register_actions`: the `"list-channels"` entry. -/
def discordListChannels : Action :=
  { name := "list-channels"
    parameters := [
      { name := "server_id", required := false, type := .str
        description := "The server id to list channels from" }]
    description := "List all the channels for a specified discord server" }

/-- The `self.actions` mapping built by
`DiscordConnection.register_actions`. -/
def discordActions : List (String × Action) :=
  [("read-messages", discordReadMessages),
   ("read-mentioned-messages", discordReadMentionedMessages),
   ("post-message", discordPostMessage),
   ("reply-to-message", discordReplyToMessage),
   ("react-to-message", discordReactToMessage),
   ("list-channels", discordListChannels)]

/-- `eternalai_connection.py`, `register_actions`: the `"generate-text"`
entry. -/
def eternalaiGenerateTextAction : Action :=
  { name := "generate-text"
    parameters := [
      { name := "prompt", required := true, type := .str
        description := "The input prompt for text generation" },
      { name := "system_prompt", required := true, type := .str
        description := "System prompt to guide the model" },
      { name := "model", required := false, type := .str
        description := "Model to use for generation" }]
    description := "Generate text using EternalAI models" }

/-- `eternalai_connection.py`, `register_actions`: the `"check-model"` entry. -/
def eternalaiCheckModel : Action :=
  { name := "check-model"
    parameters := [
      { name := "model", required := true, type := .str
        description := "Model name to check availability" }]
    description := "Check if a specific model is available" }

/-- `eternalai_connection.py`, `register_actions`: the `"list-models"` entry. -/
def eternalaiListModels : Action :=
  { name := "list-models"
    parameters := []
    description := "List all available EternalAI models" }

/-- The `self.actions` mapping built by
`EternalAIConnection.register_actions`. -/
def eternalaiActions : List (String × Action) :=
  [("generate-text", eternalaiGenerateTextAction),
   ("check-model", eternalaiCheckModel),
   ("list-models", eternalaiListModels)]

/-- `github_connection.py`, `register_actions`: the entry registered under
key `"get-repo-updates"`; note its `name` field reads `"generate-text"` in
the source. -/
def githubGetRepoUpdates : Action :=
  { name := "generate-text"
    parameters := [
      { name := "prompt", required := true, type := .str
        description := "The input prompt for text generation" },
      { name := "system_prompt", required := true, type := .str
        description := "System prompt to guide the model" },
      { name := "model", required := false, type := .str
        description := "Model to use for generation" }]
    description := "Retrieves updates for a GitHub repository" }

/-- `github_connection.py`, `register_actions`: the `"analyze-fork"` entry. -/
def githubAnalyzeFork : Action :=
  { name := "analyze-fork"
    parameters := [
      { name := "model", required := true, type := .str
        description := "Model name to check availability" }]
    description := "Analyze a GitHub fork" }

/-- `github_connection.py`, `register_actions`: the `"track-changes"` entry. -/
def githubTrackChanges : Action :=
  { name := "track-changes"
    parameters := []
    description := "Tracks changes in a GitHub repository" }

/-- The `self.actions` mapping built by `GitHubConnection.register_actions`. -/
def githubActions : List (String × Action) :=
  [("get-repo-updates", githubGetRepoUpdates),
   ("analyze-fork", githubAnalyzeFork),
   ("track-changes", githubTrackChanges)]

/-- Agreement between registry keys and the `name` field of the registered
`Action`, the spec's ActionRegistry invariant. -/
def registryKeysAgree (actions : List (String × Action)) : Bool :=
  actions.all (fun kv => kv.1 = kv.2.name)

/-! ## Dispatch (`perform_action` of each adapter)

Each `perform_action` in the source checks registry membership (raising
`KeyError` on a miss), validates, optionally injects defaults by mutating
the caller's `kwargs` dict in place, translates the action name by
`action_name.replace("-", "_")`, resolves that attribute with `getattr`
(raising `AttributeError` when the class has no such attribute) and calls
it with `**kwargs`.  The embedding records which exception class escapes,
and the caller-visible post-state of the `kwargs` dict (the source mutates
the caller's dict, never a copy, so the post-state is the injected
mapping). -/

/-- The exception classes `perform_action` itself can raise:
`KeyError` for an unregistered name, `ValueError` for validation failures,
`AttributeError` from `getattr` when no such method exists. -/
inductive DispatchError where
  | unknownAction (msg : String)
  | invalidParameters (msg : String)
  | routingError (methodName : String)
deriving DecidableEq, Repr

/-- Outcome of the dispatcher itself: either the named operation was invoked
(with the post-state mapping as its named arguments) or an error escaped. -/
inductive DispatchResult where
  | invoked (methodName : String)
  | failed (e : DispatchError)
deriving DecidableEq, Repr

/-- The dispatcher's result paired with the caller-visible state of the
`kwargs` dict after the call (the source mutates it in place). -/
structure DispatchOutcome where
  result : DispatchResult
  kwargsAfter : Args
deriving DecidableEq, Repr

/-- Python `action_name.replace("-", "_")`: hyphen-to-underscore word
joining. -/
def toMethodName (s : String) : String :=
  String.mk (s.data.map (fun c => if c = '-' then '_' else c))

/-- The attributes resolvable by `getattr` on a `DiscordConnection`: the
methods and properties defined in `discord_connection.py` (the base-class
surface, absent from the sources, is modelled per the spec as contributing
no further operations). -/
def discordMethods : List String :=
  ["is_llm_provider", "validate_config", "register_actions", "configure",
   "is_configured", "perform_action", "list_channels", "read_messages",
   "read_mentioned_messages", "post_message", "reply_to_message",
   "react_to_message", "_put_request", "_post_request", "_get_request",
   "_get_request_auth_token", "_test_connection",
   "_filter_channels_for_type_text", "_filter_message_for_bot_mentions"]

/-- The attributes resolvable by `getattr` on an `EternalAIConnection`,
from `eternalai_connection.py`. -/
def eternalaiMethods : List String :=
  ["is_llm_provider", "validate_config", "register_actions", "_get_client",
   "configure", "is_configured", "generate_text", "check_model",
   "list_models", "perform_action"]

/-- The attributes resolvable by `getattr` on a `GitHubConnection`, from
`github_connection.py`; note none of `get_repo_updates`, `analyze_fork`,
`track_changes` is among them. -/
def githubMethods : List String :=
  ["is_llm_provider", "validate_config", "register_actions", "_get_client",
   "configure", "is_configured", "generate_text", "check_model",
   "list_models", "perform_action"]

/-- A `DiscordConnection`'s validated configuration: `validate_config`
guarantees these three fields with these types before dispatch runs. -/
structure DiscordConfig where
  server_id : String
  message_read_count : Int
  message_emoji_name : String
deriving DecidableEq, Repr

/-- The `# Add config parameters if not provided` block of
`DiscordConnection.perform_action`: in-place injection of configured
defaults for parameters absent from the caller's `kwargs`. -/
def discordInjectDefaults (config : DiscordConfig) (actionName : String)
    (kwargs : Args) : Args :=
  if actionName = "read-messages" then
    if lookupKey kwargs "count" = none then
      kwargs ++ [("count", Value.vInt config.message_read_count)]
    else kwargs
  else if actionName = "read-mentioned-messages" then
    if lookupKey kwargs "count" = none then
      kwargs ++ [("count", Value.vInt config.message_read_count)]
    else kwargs
  else if actionName = "react-to-message" then
    if lookupKey kwargs "emoji_name" = none then
      kwargs ++ [("emoji_name", Value.vStr config.message_emoji_name)]
    else kwargs
  else if actionName = "list-channels" then
    if lookupKey kwargs "server_id" = none then
      kwargs ++ [("server_id", Value.vStr config.server_id)]
    else kwargs
  else kwargs

/-- `DiscordConnection.perform_action`. -/
def discordPerformAction (config : DiscordConfig) (actionName : String)
    (kwargs : Args) : DispatchOutcome :=
  match lookupKey discordActions actionName with
  | none => ⟨.failed (.unknownAction ("Unknown action: " ++ actionName)), kwargs⟩
  | some action =>
      let errors := action.validate_params kwargs
      if errors = [] then
        let kwargs := discordInjectDefaults config actionName kwargs
        let methodName := toMethodName actionName
        if discordMethods.contains methodName then
          ⟨.invoked methodName, kwargs⟩
        else
          ⟨.failed (.routingError methodName), kwargs⟩
      else
        ⟨.failed (.invalidParameters
          ("Invalid parameters: " ++ String.intercalate ", " errors)), kwargs⟩

/-- `EternalAIConnection.perform_action` (no default-injection block). -/
def eternalaiPerformAction (actionName : String) (kwargs : Args) :
    DispatchOutcome :=
  match lookupKey eternalaiActions actionName with
  | none => ⟨.failed (.unknownAction ("Unknown action: " ++ actionName)), kwargs⟩
  | some action =>
      let errors := action.validate_params kwargs
      if errors = [] then
        let methodName := toMethodName actionName
        if eternalaiMethods.contains methodName then
          ⟨.invoked methodName, kwargs⟩
        else
          ⟨.failed (.routingError methodName), kwargs⟩
      else
        ⟨.failed (.invalidParameters
          ("Invalid parameters: " ++ String.intercalate ", " errors)), kwargs⟩

/-- `GitHubConnection.perform_action` (no default-injection block). -/
def githubPerformAction (actionName : String) (kwargs : Args) :
    DispatchOutcome :=
  match lookupKey githubActions actionName with
  | none => ⟨.failed (.unknownAction ("Unknown action: " ++ actionName)), kwargs⟩
  | some action =>
      let errors := action.validate_params kwargs
      if errors = [] then
        let methodName := toMethodName actionName
        if githubMethods.contains methodName then
          ⟨.invoked methodName, kwargs⟩
        else
          ⟨.failed (.routingError methodName), kwargs⟩
      else
        ⟨.failed (.invalidParameters
          ("Invalid parameters: " ++ String.intercalate ", " errors)), kwargs⟩

/-! ## Operation signatures

Python binds `method(**kwargs)` successfully iff every parameter without a
default is supplied and, absent a `**kwargs` catch-all, no unexpected key
is supplied.  The tables below transcribe each operation's signature from
the source. -/

/-- The call signature of an adapter operation: parameters without
defaults, parameters with defaults, and whether it declares `**kwargs`. -/
structure OpSig where
  requiredParams : List String
  optionalParams : List String
  hasKwargs : Bool
deriving DecidableEq, Repr

/-- Whether binding `method(**args)` succeeds for a signature. -/
def opAccepts (sig : OpSig) (args : Args) : Bool :=
  sig.requiredParams.all (fun p => (lookupKey args p).isSome) &&
  (sig.hasKwargs ||
    args.all (fun kv =>
      sig.requiredParams.contains kv.1 || sig.optionalParams.contains kv.1))

/-- Signatures of the `DiscordConnection` operations reachable from
registered action names. -/
def discordOpSigs : List (String × OpSig) :=
  [("list_channels", ⟨["server_id"], [], true⟩),
   ("read_messages", ⟨["channel_id", "count"], [], true⟩),
   ("read_mentioned_messages", ⟨["channel_id", "count"], [], true⟩),
   ("post_message", ⟨["channel_id", "message"], [], true⟩),
   ("reply_to_message", ⟨["channel_id", "message_id", "message"], [], true⟩),
   ("react_to_message", ⟨["channel_id", "message_id", "emoji_name"], [], true⟩)]

/-- Signatures of the `EternalAIConnection` operations reachable from
registered action names. -/
def eternalaiOpSigs : List (String × OpSig) :=
  [("generate_text", ⟨["prompt", "system_prompt"], ["model", "chain_id"], true⟩),
   ("check_model", ⟨["model"], [], true⟩),
   ("list_models", ⟨[], [], true⟩)]

/-! ## Configuration lifecycle: `is_configured`

Each adapter's `is_configured(verbose=False)` wraps its whole body in
`try/except Exception`, so it is total: it reads the credential from the
environment (`os.getenv` returns `None` when unset), returns `False` when
the credential is falsy, performs a live verification call that may raise,
and returns `False` from the handler — where `verbose` gates only a
`logger.debug` line.  Environment variables are modelled as
`Option String`; the live verification as a boolean oracle (`true` = the
call returned, `false` = it raised). -/

/-- Python truthiness of an optional string: `None` and `""` are falsy. -/
def truthy : Option String → Bool
  | none => false
  | some s => s != ""

/-- `DiscordConnection.is_configured`: `DISCORD_TOKEN` from the
environment, `_test_connection` as the verification oracle. -/
def discordIsConfigured (envToken : Option String)
    (testConnection : String → Bool) (verbose : Bool) : Bool :=
  if truthy envToken then
    if testConnection (envToken.getD "") then true else false
  else false

/-- `EternalAIConnection.is_configured`: `EternalAI_API_KEY` and
`EternalAI_API_URL` from the environment, `client.models.list()` as the
verification oracle on the pair. -/
def eternalaiIsConfigured (envKey envUrl : Option String)
    (listModelsOk : String → String → Bool) (verbose : Bool) : Bool :=
  if truthy envKey && truthy envUrl then
    if listModelsOk (envKey.getD "") (envUrl.getD "") then true else false
  else false

/-- `GitHubConnection.is_configured`: `OPENAI_API_KEY` from the
environment, `client.models.list()` as the verification oracle. -/
def githubIsConfigured (envKey : Option String)
    (listModelsOk : String → Bool) (verbose : Bool) : Bool :=
  if truthy envKey then
    if listModelsOk (envKey.getD "") then true else false
  else false

/-! ## Configuration lifecycle: `validate_config` -/

/-- Python `isinstance(v, int)` (booleans are ints in Python). -/
def pyIsInt : Value → Bool
  | .vInt _ => true
  | .vBool _ => true
  | _ => false

/-- Python `isinstance(v, str)`. -/
def pyIsStr : Value → Bool
  | .vStr _ => true
  | _ => false

/-- The integer a value denotes in an `int` comparison context
(`True == 1`, `False == 0`); only consulted after `pyIsInt` holds. -/
def pyToInt : Value → Int
  | .vInt n => n
  | .vBool b => if b then 1 else 0
  | _ => 0

/-- Python `len(v)` for the string case; only consulted after `pyIsStr`
holds. -/
def pyStrLen : Value → Nat
  | .vStr s => s.length
  | _ => 0

/-- The `required_fields` list of `DiscordConnection.validate_config`. -/
def discordRequiredFields : List String :=
  ["server_id", "message_read_count", "message_emoji_name"]

/-- `DiscordConnection.validate_config`: missing-field check (aggregating
all missing names), then type/range checks in source order, returning the
input mapping itself on acceptance; `ValueError` messages are the error
results. -/
def discordValidateConfig (config : Args) : Except String Args :=
  if (discordRequiredFields.filter
      (fun f => (lookupKey config f).isNone)).isEmpty then
    if pyIsInt ((lookupKey config "message_read_count").getD .vNone) = false ∨
        pyToInt ((lookupKey config "message_read_count").getD .vNone) ≤ 0 then
      .error "message_read_count must be a positive integer"
    else if pyIsStr ((lookupKey config "message_emoji_name").getD .vNone) =
        false ∨
        pyStrLen ((lookupKey config "message_emoji_name").getD .vNone) ≤ 0 then
      .error "message_emoji_name must be a valid string"
    else if pyIsStr ((lookupKey config "server_id").getD .vNone) = false ∨
        pyStrLen ((lookupKey config "server_id").getD .vNone) ≤ 0 then
      .error "server_id must be a valid string"
    else .ok config
  else
    .error ("Missing required configuration fields: " ++
      String.intercalate ", " (discordRequiredFields.filter
        (fun f => (lookupKey config f).isNone)))

/-- `EternalAIConnection.validate_config`: requires a `"model"` field that
is a string. -/
def eternalaiValidateConfig (config : Args) : Except String Args :=
  if ((["model"] : List String).filter
      (fun f => (lookupKey config f).isNone)).isEmpty then
    if pyIsStr ((lookupKey config "model").getD .vNone) then .ok config
    else .error "model must be a string"
  else
    .error ("Missing required configuration fields: " ++
      String.intercalate ", " ((["model"] : List String).filter
        (fun f => (lookupKey config f).isNone)))

/-- `GitHubConnection.validate_config`: the source body is
`return config` (validation left as a TODO), so every mapping is accepted
unchanged. -/
def githubValidateConfig (config : Args) : Except String Args :=
  .ok config

/-! ## `EternalAIConnection.generate_text`

The whole body runs inside `try/except Exception as e`, whose handler
raises `EternalAIAPIError(f"Text generation failed: {e}")`.  The OpenAI
client construction and the completions call are external collaborators,
modelled as parameters; `os.getenv` results as `Option String`; the raised
exception classes as `PyError`. -/

/-- The exception classes that can arise inside `generate_text`. -/
inductive PyError where
  | configurationError (msg : String)
  | apiError (msg : String)
  | keyError (key : String)
  | otherError (msg : String)
deriving DecidableEq, Repr

/-- `str(e)` for the modelled exceptions, as interpolated into
`f"Text generation failed: {e}"`. -/
def excMessage : PyError → String
  | .configurationError m => m
  | .apiError m => m
  | .keyError k => "KeyError: " ++ k
  | .otherError m => m

/-- The `OpenAI(api_key=..., base_url=...)` client value. -/
structure EternalClient where
  api_key : String
  base_url : String
deriving DecidableEq, Repr

/-- The object returned by `client.chat.completions.create`; `choices`
models `completion.choices` (`none` = the `is None` branch), carrying the
eventual `choices[0].message.content`. -/
structure Completion where
  choices : Option String
deriving DecidableEq, Repr

/-- `EternalAIConnection._get_client`: returns the cached client, else
builds one from `EternalAI_API_KEY` / `EternalAI_API_URL`, raising
`EternalAIConfigurationError` when either is falsy. -/
def eternalaiGetClient (cached : Option EternalClient)
    (envKey envUrl : Option String) : Except PyError EternalClient :=
  match cached with
  | some c => .ok c
  | none =>
      if truthy envKey && truthy envUrl then
        .ok ⟨envKey.getD "", envUrl.getD ""⟩
      else
        .error (.configurationError
          "EternalAI credentials not found in environment")

/-- The string a config value renders as when read where a string is
expected. -/
def pyStrOf : Value → String
  | .vStr s => s
  | .vInt n => toString n
  | .vBool b => if b then "True" else "False"
  | .vNone => "None"

/-- The `try` body of `EternalAIConnection.generate_text`: client lookup,
`model or self.config["model"]`, `chain_id or self.config["chain_id"]`
(a `KeyError` when the key is absent and the argument falsy), the
`"45762"` fallback for an empty chain id, the completions call (an
external oracle that may raise), and the `completion.choices is None`
check. -/
def eternalaiGenerateTextBody (cached : Option EternalClient)
    (envKey envUrl : Option String) (config : Args)
    (prompt system_prompt : String) (model chain_id : Option String)
    (create : EternalClient → String → String → String → String →
      Except PyError Completion) : Except PyError String := do
  let client ← eternalaiGetClient cached envKey envUrl
  let modelName ←
    if truthy model then pure (model.getD "")
    else
      match lookupKey config "model" with
      | some v => pure (pyStrOf v)
      | none => Except.error (.keyError "model")
  let chainId ←
    if truthy chain_id then pure (chain_id.getD "")
    else
      match lookupKey config "chain_id" with
      | some v => pure (pyStrOf v)
      | none => Except.error (.keyError "chain_id")
  let chainId := if chainId = "" then "45762" else chainId
  let completion ← create client modelName system_prompt prompt chainId
  match completion.choices with
  | none => Except.error (.apiError
      "Text generation failed: completion.choices is None")
  | some content => pure content

/-- `EternalAIConnection.generate_text`: the `try` body with its
`except Exception` handler, which re-raises every failure — the
missing-credential `EternalAIConfigurationError`, the `chain_id`
`KeyError`, and collaborator failures alike — as `EternalAIAPIError`. -/
def eternalaiGenerateText (cached : Option EternalClient)
    (envKey envUrl : Option String) (config : Args)
    (prompt system_prompt : String) (model chain_id : Option String)
    (create : EternalClient → String → String → String → String →
      Except PyError Completion) : Except PyError String :=
  match eternalaiGenerateTextBody cached envKey envUrl config prompt
      system_prompt model chain_id create with
  | .ok s => .ok s
  | .error e => .error (.apiError ("Text generation failed: " ++ excMessage e))

/-! ## Spec-side predicates

These definitions follow the spec's words (not the source) and exist to be
compared against the source-derived definitions above. -/

/-- Spec-side, following the spec's words "every required parameter is
present with a compatible kind" (section 8, first testable property). -/
def allRequiredOk (a : Action) (args : Args) : Bool :=
  a.parameters.all (fun p =>
    !p.required ||
      (match lookupKey args p.name with
       | some v => isinst v p.type
       | none => false))

/-- Spec-side, one declared parameter's acceptance per spec section 4.1:
absent is acceptable iff optional; present is acceptable iff its kind is
compatible. -/
def paramOk (p : ActionParameter) (args : Args) : Bool :=
  match lookupKey args p.name with
  | none => !p.required
  | some v => isinst v p.type

/-- Spec-side: every declared parameter of the action is acceptable. -/
def paramsOk (a : Action) (args : Args) : Bool :=
  a.parameters.all (fun p => paramOk p args)

/-- Spec-side: the parameter is required yet absent from the arguments
(one failure message per such parameter). -/
def isRequiredMissing (p : ActionParameter) (args : Args) : Bool :=
  p.required && (lookupKey args p.name).isNone

/-- Spec-side: the parameter is present but of an incompatible kind
(one failure message per such parameter). -/
def isPresentWrongKind (p : ActionParameter) (args : Args) : Bool :=
  match lookupKey args p.name with
  | none => false
  | some v => !isinst v p.type

/-- The list of required configuration fields absent from a raw Discord
configuration mapping, as computed by `DiscordConnection.validate_config`. -/
def discordMissingFields (config : Args) : List String :=
  discordRequiredFields.filter (fun f => (lookupKey config f).isNone)

/-- Spec-side: `message_read_count` "must be a positive integer". -/
def discordReadCountOk (config : Args) : Bool :=
  pyIsInt ((lookupKey config "message_read_count").getD .vNone) &&
  decide (0 < pyToInt ((lookupKey config "message_read_count").getD .vNone))

/-- Spec-side: `message_emoji_name` must be a non-empty string. -/
def discordEmojiOk (config : Args) : Bool :=
  pyIsStr ((lookupKey config "message_emoji_name").getD .vNone) &&
  decide (0 < pyStrLen ((lookupKey config "message_emoji_name").getD .vNone))

/-- Spec-side: `server_id` must be a non-empty string. -/
def discordServerIdOk (config : Args) : Bool :=
  pyIsStr ((lookupKey config "server_id").getD .vNone) &&
  decide (0 < pyStrLen ((lookupKey config "server_id").getD .vNone))

/-- Spec-side: a raw Discord configuration acceptable per the spec's
constraints (required-field presence, then type and value-range checks). -/
def discordConfigOk (config : Args) : Bool :=
  (discordMissingFields config).isEmpty && discordReadCountOk config &&
  discordEmojiOk config && discordServerIdOk config

/-- Spec-side: a raw EternalAI configuration acceptable per the spec's
constraints — the required `"model"` field is present and is a string. -/
def eternalaiConfigOk (config : Args) : Bool :=
  (lookupKey config "model").isSome &&
  pyIsStr ((lookupKey config "model").getD .vNone)

/-! ## Helper lemmas -/

theorem lookupKey_nil {α : Type} (k : String) :
    lookupKey ([] : List (String × α)) k = none := rfl

theorem lookupKey_cons {α : Type} (k' : String) (v' : α)
    (rest : List (String × α)) (k : String) :
    lookupKey ((k', v') :: rest) k =
      if k' = k then some v' else lookupKey rest k := rfl

theorem lookupKey_append_some {α : Type} {l₁ : List (String × α)} {k : String}
    {v : α} (l₂ : List (String × α)) (h : lookupKey l₁ k = some v) :
    lookupKey (l₁ ++ l₂) k = some v := by
  induction l₁ with
  | nil => rw [lookupKey_nil] at h; exact absurd h (by simp)
  | cons kv rest ih =>
      obtain ⟨k', v'⟩ := kv
      rw [List.cons_append, lookupKey_cons]
      rw [lookupKey_cons] at h
      by_cases he : k' = k
      · rwa [if_pos he] at h ⊢
      · rw [if_neg he] at h ⊢
        exact ih h

theorem lookupKey_append_none {α : Type} {l₁ : List (String × α)} {k : String}
    (l₂ : List (String × α)) (h : lookupKey l₁ k = none) :
    lookupKey (l₁ ++ l₂) k = lookupKey l₂ k := by
  induction l₁ with
  | nil => simp
  | cons kv rest ih =>
      obtain ⟨k', v'⟩ := kv
      rw [List.cons_append, lookupKey_cons]
      rw [lookupKey_cons] at h
      by_cases he : k' = k
      · rw [if_pos he] at h; exact absurd h (by simp)
      · rw [if_neg he] at h ⊢
        exact ih h

theorem lookupKey_eq_some_mem {α : Type} {l : List (String × α)} {k : String}
    {v : α} (h : lookupKey l k = some v) : (k, v) ∈ l := by
  induction l with
  | nil => rw [lookupKey_nil] at h; exact absurd h (by simp)
  | cons kv rest ih =>
      obtain ⟨k', v'⟩ := kv
      rw [lookupKey_cons] at h
      by_cases he : k' = k
      · rw [if_pos he] at h
        subst he
        obtain rfl : v' = v := by simpa using h
        exact List.mem_cons_self _ _
      · rw [if_neg he] at h
        exact List.mem_cons_of_mem _ (ih h)

theorem checkParam_eq_none_iff (p : ActionParameter) (args : Args) :
    checkParam p args = none ↔ paramOk p args = true := by
  unfold checkParam paramOk
  cases h : lookupKey args p.name with
  | none => cases hr : p.required <;> simp
  | some v => cases hi : isinst v p.type <;> simp [hi]

theorem checkParam_isSome_eq (p : ActionParameter) (args : Args) :
    (checkParam p args).isSome =
      (isRequiredMissing p args || isPresentWrongKind p args) := by
  unfold checkParam isRequiredMissing isPresentWrongKind
  cases h : lookupKey args p.name with
  | none => cases hr : p.required <;> simp [hr]
  | some v => cases hi : isinst v p.type <;> simp [hi]

theorem not_both_missing_wrong (p : ActionParameter) (args : Args) :
    isRequiredMissing p args = true → isPresentWrongKind p args = false := by
  unfold isRequiredMissing isPresentWrongKind
  cases h : lookupKey args p.name <;> simp

theorem validate_params_eq_nil_iff (a : Action) (args : Args) :
    a.validate_params args = [] ↔ paramsOk a args = true := by
  unfold Action.validate_params paramsOk
  rw [List.filterMap_eq_nil_iff, List.all_eq_true]
  constructor
  · intro h p hp
    exact (checkParam_eq_none_iff p args).mp (h p hp)
  · intro h p hp
    exact (checkParam_eq_none_iff p args).mpr (h p hp)

theorem validate_params_length_eq (a : Action) (args : Args) :
    (a.validate_params args).length =
      (a.parameters.filter (fun p => isRequiredMissing p args)).length +
      (a.parameters.filter (fun p => isPresentWrongKind p args)).length := by
  unfold Action.validate_params
  induction a.parameters with
  | nil => simp
  | cons p ps ih =>
      have h := checkParam_isSome_eq p args
      simp only [List.filterMap_cons, List.filter_cons]
      cases hc : checkParam p args with
      | none =>
          rw [hc] at h
          simp only [Option.isSome_none] at h
          have h1 : isRequiredMissing p args = false := by
            cases hm : isRequiredMissing p args <;> simp [hm] at h ⊢
          have h2 : isPresentWrongKind p args = false := by
            cases hm : isPresentWrongKind p args <;> simp [hm] at h ⊢
          simp [h1, h2, ih]
      | some m =>
          rw [hc] at h
          simp only [Option.isSome_some] at h
          cases hm : isRequiredMissing p args with
          | true =>
              have h2 := not_both_missing_wrong p args hm
              simp only [hm, h2, if_pos, if_neg, Bool.false_eq_true,
                ite_true, ite_false, List.length_cons, ih]
              omega
          | false =>
              have h2 : isPresentWrongKind p args = true := by
                rw [hm] at h; simpa using h.symm
              simp only [hm, h2, Bool.false_eq_true, ite_true, ite_false,
                List.length_cons, ih]
              omega

theorem checkParam_append_extra (p : ActionParameter) (args extra : Args)
    (h : lookupKey extra p.name = none) :
    checkParam p (args ++ extra) = checkParam p args := by
  unfold checkParam
  cases ha : lookupKey args p.name with
  | none => rw [lookupKey_append_none extra ha, h]
  | some v => rw [lookupKey_append_some extra ha]

theorem filterMap_checkParam_append_extra (ps : List ActionParameter)
    (args extra : Args) (h : ∀ p ∈ ps, lookupKey extra p.name = none) :
    ps.filterMap (fun p => checkParam p (args ++ extra)) =
      ps.filterMap (fun p => checkParam p args) := by
  induction ps with
  | nil => simp
  | cons p ps ih =>
      simp only [List.filterMap_cons]
      rw [checkParam_append_extra p args extra (h p (by simp))]
      rw [ih (fun q hq => h q (by simp [hq]))]

theorem validate_params_append_extra (a : Action) (args extra : Args)
    (h : ∀ p ∈ a.parameters, lookupKey extra p.name = none) :
    a.validate_params (args ++ extra) = a.validate_params args :=
  filterMap_checkParam_append_extra a.parameters args extra h

theorem validate_params_nil_required_present (a : Action) (args : Args)
    (h : a.validate_params args = []) :
    ∀ p ∈ a.parameters, p.required = true →
      (lookupKey args p.name).isSome = true := by
  intro p hp hr
  have := (validate_params_eq_nil_iff a args).mp h
  unfold paramsOk at this
  rw [List.all_eq_true] at this
  have hp' := this p hp
  unfold paramOk at hp'
  cases hl : lookupKey args p.name with
  | none => rw [hl, hr] at hp'; simp at hp'
  | some v => simp

theorem discordPerformAction_eq (config : DiscordConfig) (n : String)
    (a : Action) (kwargs : Args) (h : lookupKey discordActions n = some a) :
    discordPerformAction config n kwargs =
      (if a.validate_params kwargs = [] then
        (if discordMethods.contains (toMethodName n) then
          ⟨.invoked (toMethodName n),
            discordInjectDefaults config n kwargs⟩
         else
          ⟨.failed (.routingError (toMethodName n)),
            discordInjectDefaults config n kwargs⟩)
      else
        ⟨.failed (.invalidParameters ("Invalid parameters: " ++
          String.intercalate ", " (a.validate_params kwargs))), kwargs⟩) := by
  unfold discordPerformAction
  rw [h]

theorem eternalaiPerformAction_eq (n : String) (a : Action) (kwargs : Args)
    (h : lookupKey eternalaiActions n = some a) :
    eternalaiPerformAction n kwargs =
      (if a.validate_params kwargs = [] then
        (if eternalaiMethods.contains (toMethodName n) then
          ⟨.invoked (toMethodName n), kwargs⟩
         else ⟨.failed (.routingError (toMethodName n)), kwargs⟩)
      else
        ⟨.failed (.invalidParameters ("Invalid parameters: " ++
          String.intercalate ", " (a.validate_params kwargs))), kwargs⟩) := by
  unfold eternalaiPerformAction
  rw [h]

theorem githubPerformAction_eq (n : String) (a : Action) (kwargs : Args)
    (h : lookupKey githubActions n = some a) :
    githubPerformAction n kwargs =
      (if a.validate_params kwargs = [] then
        (if githubMethods.contains (toMethodName n) then
          ⟨.invoked (toMethodName n), kwargs⟩
         else ⟨.failed (.routingError (toMethodName n)), kwargs⟩)
      else
        ⟨.failed (.invalidParameters ("Invalid parameters: " ++
          String.intercalate ", " (a.validate_params kwargs))), kwargs⟩) := by
  unfold githubPerformAction
  rw [h]

theorem github_registered_names (n : String) (a : Action)
    (h : lookupKey githubActions n = some a) :
    (n = "get-repo-updates" ∧ a = githubGetRepoUpdates) ∨
    (n = "analyze-fork" ∧ a = githubAnalyzeFork) ∨
    (n = "track-changes" ∧ a = githubTrackChanges) := by
  have hmem := lookupKey_eq_some_mem h
  simp only [githubActions, List.mem_cons, List.not_mem_nil, or_false,
    Prod.mk.injEq] at hmem
  exact hmem

theorem discord_registered_names (n : String) (a : Action)
    (h : lookupKey discordActions n = some a) :
    (n = "read-messages" ∧ a = discordReadMessages) ∨
    (n = "read-mentioned-messages" ∧ a = discordReadMentionedMessages) ∨
    (n = "post-message" ∧ a = discordPostMessage) ∨
    (n = "reply-to-message" ∧ a = discordReplyToMessage) ∨
    (n = "react-to-message" ∧ a = discordReactToMessage) ∨
    (n = "list-channels" ∧ a = discordListChannels) := by
  have hmem := lookupKey_eq_some_mem h
  simp only [discordActions, List.mem_cons, List.not_mem_nil, or_false,
    Prod.mk.injEq] at hmem
  exact hmem

theorem eternalai_registered_names (n : String) (a : Action)
    (h : lookupKey eternalaiActions n = some a) :
    (n = "generate-text" ∧ a = eternalaiGenerateTextAction) ∨
    (n = "check-model" ∧ a = eternalaiCheckModel) ∨
    (n = "list-models" ∧ a = eternalaiListModels) := by
  have hmem := lookupKey_eq_some_mem h
  simp only [eternalaiActions, List.mem_cons, List.not_mem_nil, or_false,
    Prod.mk.injEq] at hmem
  exact hmem

theorem opAccepts_hasKwargs (sig : OpSig) (args : Args)
    (hk : sig.hasKwargs = true)
    (hreq : ∀ p ∈ sig.requiredParams, (lookupKey args p).isSome = true) :
    opAccepts sig args = true := by
  unfold opAccepts
  rw [hk]
  simp only [Bool.true_or, Bool.and_true, List.all_eq_true]
  exact fun p hp => hreq p hp

theorem lookupKey_isSome_append {l₁ : Args} {k : String}
    (l₂ : Args) (h : (lookupKey l₁ k).isSome = true) :
    (lookupKey (l₁ ++ l₂) k).isSome = true := by
  obtain ⟨v, hv⟩ := Option.isSome_iff_exists.mp h
  rw [lookupKey_append_some l₂ hv]
  rfl

theorem discordReadCountOk_true_iff (config : Args) :
    discordReadCountOk config = true ↔
      ¬(pyIsInt ((lookupKey config "message_read_count").getD .vNone) = false ∨
        pyToInt ((lookupKey config "message_read_count").getD .vNone) ≤ 0) := by
  unfold discordReadCountOk
  rw [Bool.and_eq_true, decide_eq_true_iff]
  constructor
  · rintro ⟨h1, h2⟩ (h3 | h3)
    · rw [h1] at h3
      simp at h3
    · omega
  · intro h
    push_neg at h
    refine ⟨?_, by omega⟩
    cases hb : pyIsInt ((lookupKey config "message_read_count").getD .vNone)
    · exact absurd hb h.1
    · rfl

theorem discordEmojiOk_true_iff (config : Args) :
    discordEmojiOk config = true ↔
      ¬(pyIsStr ((lookupKey config "message_emoji_name").getD .vNone) = false ∨
        pyStrLen ((lookupKey config "message_emoji_name").getD .vNone) ≤ 0) := by
  unfold discordEmojiOk
  rw [Bool.and_eq_true, decide_eq_true_iff]
  constructor
  · rintro ⟨h1, h2⟩ (h3 | h3)
    · rw [h1] at h3
      simp at h3
    · omega
  · intro h
    push_neg at h
    refine ⟨?_, by omega⟩
    cases hb : pyIsStr ((lookupKey config "message_emoji_name").getD .vNone)
    · exact absurd hb h.1
    · rfl

theorem discordServerIdOk_true_iff (config : Args) :
    discordServerIdOk config = true ↔
      ¬(pyIsStr ((lookupKey config "server_id").getD .vNone) = false ∨
        pyStrLen ((lookupKey config "server_id").getD .vNone) ≤ 0) := by
  unfold discordServerIdOk
  rw [Bool.and_eq_true, decide_eq_true_iff]
  constructor
  · rintro ⟨h1, h2⟩ (h3 | h3)
    · rw [h1] at h3
      simp at h3
    · omega
  · intro h
    push_neg at h
    refine ⟨?_, by omega⟩
    cases hb : pyIsStr ((lookupKey config "server_id").getD .vNone)
    · exact absurd hb h.1
    · rfl

/-! ## Claim theorems -/

/-- C1 (code evaluation at the failing input): the registry key /
`Action.name` agreement holds for every entry of `DiscordConnection` and
`EternalAIConnection`, but fails for `GitHubConnection`: its
`"get-repo-updates"` key maps to an `Action` whose `name` field is
`"generate-text"` (a copy-paste slip in `register_actions`,
`github_connection.py` line 46). -/
theorem github_registry_key_name_mismatch :
    registryKeysAgree discordActions = true ∧
    registryKeysAgree eternalaiActions = true ∧
    registryKeysAgree githubActions = false ∧
    lookupKey githubActions "get-repo-updates" = some githubGetRepoUpdates ∧
    githubGetRepoUpdates.name = "generate-text" := by
  refine ⟨by decide, by decide, by decide, by decide, rfl⟩

/-- C3: for every adapter taken on its own and every name not registered
in that adapter's actions mapping — including names registered in a
different adapter's mapping — `perform_action` fails with the
unknown-action error (`KeyError` in the source) for any argument mapping,
and the outcome records no operation invocation and an unchanged caller
mapping — so no validation, default injection, or platform call has
occurred. -/
theorem performAction_unknownAction (n : String) (kwargs : Args) :
    (lookupKey discordActions n = none →
      ∀ config : DiscordConfig,
        discordPerformAction config n kwargs =
          ⟨.failed (.unknownAction ("Unknown action: " ++ n)), kwargs⟩) ∧
    (lookupKey eternalaiActions n = none →
      eternalaiPerformAction n kwargs =
        ⟨.failed (.unknownAction ("Unknown action: " ++ n)), kwargs⟩) ∧
    (lookupKey githubActions n = none →
      githubPerformAction n kwargs =
        ⟨.failed (.unknownAction ("Unknown action: " ++ n)), kwargs⟩) := by
  refine ⟨fun hd config => ?_, fun he => ?_, fun hg => ?_⟩
  · unfold discordPerformAction
    rw [hd]
  · unfold eternalaiPerformAction
    rw [he]
  · unfold githubPerformAction
    rw [hg]

/-- Witness for C3: `"read-messages"` is registered on DiscordConnection
but not on GitHubConnection, and `"generate-text"` is registered on
EternalAIConnection but not on DiscordConnection; each adapter rejects the
name the other registers, also on a non-empty argument mapping. -/
theorem performAction_unknownAction_witness :
    githubPerformAction "read-messages" [("x", Value.vStr "y")] =
      ⟨.failed (.unknownAction ("Unknown action: " ++ "read-messages")),
        [("x", Value.vStr "y")]⟩ ∧
    discordPerformAction ⟨"srv", 5, "thumbsup"⟩ "generate-text" [] =
      ⟨.failed (.unknownAction ("Unknown action: " ++ "generate-text")), []⟩ :=
  ⟨(performAction_unknownAction "read-messages" [("x", Value.vStr "y")]).2.2
      (by decide),
    (performAction_unknownAction "generate-text" []).1 (by decide)
      ⟨"srv", 5, "thumbsup"⟩⟩

/-- C6: for every registered action of `GitHubConnection` and every
argument mapping passing validation, dispatch resolves the action name by
the fixed hyphen-to-underscore rule and, since no such operation exists on
the adapter for any of its three registered names, fails with the routing
error (`AttributeError` from `getattr` in the source) — an error
distinguishable from the unknown-action and invalid-parameters errors, and
returned, never swallowed. -/
theorem github_missing_operation_routingError (n : String) (kwargs : Args)
    (a : Action) (h : lookupKey githubActions n = some a)
    (hv : a.validate_params kwargs = []) :
    githubPerformAction n kwargs =
      ⟨.failed (.routingError (toMethodName n)), kwargs⟩ ∧
    (∀ m, DispatchError.routingError (toMethodName n) ≠
      DispatchError.unknownAction m) ∧
    (∀ m, DispatchError.routingError (toMethodName n) ≠
      DispatchError.invalidParameters m) := by
  refine ⟨?_, fun m => by simp, fun m => by simp⟩
  rw [githubPerformAction_eq n a kwargs h, hv]
  rcases github_registered_names n a h with ⟨rfl, rfl⟩ | ⟨rfl, rfl⟩ | ⟨rfl, rfl⟩ <;>
    · rw [if_pos rfl, if_neg (by decide)]

/-- Witness for C6 at the registered action `"track-changes"` (which has
no `track_changes` method) with the empty argument mapping. -/
theorem github_missing_operation_routingError_witness :
    githubPerformAction "track-changes" [] =
      ⟨.failed (.routingError (toMethodName "track-changes")), []⟩ :=
  (github_missing_operation_routingError "track-changes" [] githubTrackChanges
    (by decide) (by decide)).1

/-- C7: for every adapter, `is_configured(verbose)` returns `false` both
when no credential is stored in the environment and when the stored
credential fails live verification (the verification oracle reports a
raise), and the `verbose` flag never changes the boolean result; the whole
body is wrapped in `try/except`, so the function is total (it is embedded
as a total boolean function). -/
theorem isConfigured_false_cases_verbose_irrelevant :
    (∀ t v, discordIsConfigured none t v = false) ∧
    (∀ env v, discordIsConfigured env (fun _ => false) v = false) ∧
    (∀ env t v v', discordIsConfigured env t v = discordIsConfigured env t v') ∧
    (∀ u f v, eternalaiIsConfigured none u f v = false) ∧
    (∀ k f v, eternalaiIsConfigured k none f v = false) ∧
    (∀ k u v, eternalaiIsConfigured k u (fun _ _ => false) v = false) ∧
    (∀ k u f v v',
      eternalaiIsConfigured k u f v = eternalaiIsConfigured k u f v') ∧
    (∀ f v, githubIsConfigured none f v = false) ∧
    (∀ env v, githubIsConfigured env (fun _ => false) v = false) ∧
    (∀ env f v v', githubIsConfigured env f v = githubIsConfigured env f v') := by
  refine ⟨fun t v => rfl, fun env v => ?_, fun env t v v' => rfl,
    fun u f v => rfl, fun k f v => ?_, fun k u v => ?_, fun k u f v v' => rfl,
    fun f v => rfl, fun env v => ?_, fun env f v v' => rfl⟩
  · unfold discordIsConfigured
    cases h : truthy env <;> simp
  · unfold eternalaiIsConfigured
    simp [truthy]
  · unfold eternalaiIsConfigured
    cases h : truthy k && truthy u <;> simp
  · unfold githubIsConfigured
    cases h : truthy env <;> simp

/-- C2 (counterexample to the claim's "iff"): for DiscordConnection's
`"read-messages"` action and the arguments
`{"channel_id": "c", "count": "five"}`, every required parameter is present
with a compatible kind — the spec's stated emptiness condition — yet
`validate_params` is non-empty, because the optional `"count"` parameter is
present with an incompatible kind. -/
theorem validate_params_empty_iff_counterexample :
    allRequiredOk discordReadMessages
        [("channel_id", Value.vStr "c"), ("count", Value.vStr "five")] = true ∧
    discordReadMessages.validate_params
        [("channel_id", Value.vStr "c"), ("count", Value.vStr "five")] ≠ [] :=
  ⟨by decide, by decide⟩

/-- C2 (amended): `validate_params` returns one failure message per
required parameter absent from the arguments plus one per
present-but-wrong-kind parameter, and returns the empty sequence iff every
required parameter is present with a compatible kind AND every present
declared parameter has a compatible kind; when the sequence is non-empty,
every adapter's `perform_action` fails with the invalid-parameters error
whose message aggregates every violation found (the whole sequence joined),
not just the first. -/
theorem validate_params_characterization :
    (∀ (a : Action) (args : Args),
      (a.validate_params args).length =
        (a.parameters.filter (fun p => isRequiredMissing p args)).length +
        (a.parameters.filter (fun p => isPresentWrongKind p args)).length) ∧
    (∀ (a : Action) (args : Args),
      a.validate_params args = [] ↔ paramsOk a args = true) ∧
    (∀ (config : DiscordConfig) (n : String) (a : Action) (args : Args),
      lookupKey discordActions n = some a → a.validate_params args ≠ [] →
      discordPerformAction config n args =
        ⟨.failed (.invalidParameters ("Invalid parameters: " ++
          String.intercalate ", " (a.validate_params args))), args⟩) ∧
    (∀ (n : String) (a : Action) (args : Args),
      lookupKey eternalaiActions n = some a → a.validate_params args ≠ [] →
      eternalaiPerformAction n args =
        ⟨.failed (.invalidParameters ("Invalid parameters: " ++
          String.intercalate ", " (a.validate_params args))), args⟩) ∧
    (∀ (n : String) (a : Action) (args : Args),
      lookupKey githubActions n = some a → a.validate_params args ≠ [] →
      githubPerformAction n args =
        ⟨.failed (.invalidParameters ("Invalid parameters: " ++
          String.intercalate ", " (a.validate_params args))), args⟩) := by
  refine ⟨validate_params_length_eq, validate_params_eq_nil_iff,
    fun config n a args h hv => ?_, fun n a args h hv => ?_,
    fun n a args h hv => ?_⟩
  · rw [discordPerformAction_eq config n a args h, if_neg hv]
  · rw [eternalaiPerformAction_eq n a args h, if_neg hv]
  · rw [githubPerformAction_eq n a args h, if_neg hv]

/-- Witness for C2 at DiscordConnection's `"post-message"` with empty
arguments: the error message aggregates both missing required parameters. -/
theorem validate_params_characterization_witness :
    discordPerformAction ⟨"srv", 5, "thumbsup"⟩ "post-message" [] =
      ⟨.failed (.invalidParameters ("Invalid parameters: " ++
        String.intercalate ", " (discordPostMessage.validate_params []))), []⟩ :=
  validate_params_characterization.2.2.1 ⟨"srv", 5, "thumbsup"⟩ "post-message"
    discordPostMessage [] (by decide) (by decide)

/-- C4: DiscordConnection's default-injection policy — a missing `"count"`
on `"read-messages"` / `"read-mentioned-messages"` is filled from
`config["message_read_count"]`, a missing `"emoji_name"` on
`"react-to-message"` from `config["message_emoji_name"]`, a missing
`"server_id"` on `"list-channels"` from `config["server_id"]`; and
whenever the caller supplies one of these keys, the mapping is passed to
the operation unchanged (defaults never override supplied values). -/
theorem discord_default_injection (config : DiscordConfig) (kwargs : Args) :
    (lookupKey kwargs "count" = none →
      discordReadMessages.validate_params kwargs = [] →
      discordPerformAction config "read-messages" kwargs =
        ⟨.invoked "read_messages",
          kwargs ++ [("count", Value.vInt config.message_read_count)]⟩ ∧
      lookupKey (discordPerformAction config "read-messages" kwargs).kwargsAfter
          "count" = some (Value.vInt config.message_read_count)) ∧
    (lookupKey kwargs "count" = none →
      discordReadMentionedMessages.validate_params kwargs = [] →
      discordPerformAction config "read-mentioned-messages" kwargs =
        ⟨.invoked "read_mentioned_messages",
          kwargs ++ [("count", Value.vInt config.message_read_count)]⟩) ∧
    (lookupKey kwargs "emoji_name" = none →
      discordReactToMessage.validate_params kwargs = [] →
      discordPerformAction config "react-to-message" kwargs =
        ⟨.invoked "react_to_message",
          kwargs ++ [("emoji_name", Value.vStr config.message_emoji_name)]⟩) ∧
    (lookupKey kwargs "server_id" = none →
      discordListChannels.validate_params kwargs = [] →
      discordPerformAction config "list-channels" kwargs =
        ⟨.invoked "list_channels",
          kwargs ++ [("server_id", Value.vStr config.server_id)]⟩) ∧
    (∀ v, lookupKey kwargs "count" = some v →
      discordReadMessages.validate_params kwargs = [] →
      discordPerformAction config "read-messages" kwargs =
        ⟨.invoked "read_messages", kwargs⟩) ∧
    (∀ v, lookupKey kwargs "count" = some v →
      discordReadMentionedMessages.validate_params kwargs = [] →
      discordPerformAction config "read-mentioned-messages" kwargs =
        ⟨.invoked "read_mentioned_messages", kwargs⟩) ∧
    (∀ v, lookupKey kwargs "emoji_name" = some v →
      discordReactToMessage.validate_params kwargs = [] →
      discordPerformAction config "react-to-message" kwargs =
        ⟨.invoked "react_to_message", kwargs⟩) ∧
    (∀ v, lookupKey kwargs "server_id" = some v →
      discordListChannels.validate_params kwargs = [] →
      discordPerformAction config "list-channels" kwargs =
        ⟨.invoked "list_channels", kwargs⟩) := by
  refine ⟨fun hc hv => ?_, fun hc hv => ?_, fun hc hv => ?_, fun hc hv => ?_,
    fun v hc hv => ?_, fun v hc hv => ?_, fun v hc hv => ?_, fun v hc hv => ?_⟩
  · have houtcome :
        discordPerformAction config "read-messages" kwargs =
          ⟨.invoked "read_messages",
            kwargs ++ [("count", Value.vInt config.message_read_count)]⟩ := by
      rw [discordPerformAction_eq config _ discordReadMessages kwargs (by decide),
        if_pos hv, if_pos (by decide)]
      unfold discordInjectDefaults
      rw [if_pos rfl, if_pos hc]
      have ht : toMethodName "read-messages" = "read_messages" := by decide
      rw [ht]
    refine ⟨houtcome, ?_⟩
    rw [houtcome]
    rw [show (⟨.invoked "read_messages",
      kwargs ++ [("count", Value.vInt config.message_read_count)]⟩ :
        DispatchOutcome).kwargsAfter =
      kwargs ++ [("count", Value.vInt config.message_read_count)] from rfl]
    rw [lookupKey_append_none _ hc]
    rw [lookupKey_cons]
    rw [if_pos rfl]
  · rw [discordPerformAction_eq config _ discordReadMentionedMessages kwargs
      (by decide), if_pos hv, if_pos (by decide)]
    unfold discordInjectDefaults
    rw [if_neg (by decide), if_pos rfl, if_pos hc]
    have ht : toMethodName "read-mentioned-messages" =
      "read_mentioned_messages" := by decide
    rw [ht]
  · rw [discordPerformAction_eq config _ discordReactToMessage kwargs
      (by decide), if_pos hv, if_pos (by decide)]
    unfold discordInjectDefaults
    rw [if_neg (by decide), if_neg (by decide), if_pos rfl, if_pos hc]
    have ht : toMethodName "react-to-message" = "react_to_message" := by decide
    rw [ht]
  · rw [discordPerformAction_eq config _ discordListChannels kwargs
      (by decide), if_pos hv, if_pos (by decide)]
    unfold discordInjectDefaults
    rw [if_neg (by decide), if_neg (by decide), if_neg (by decide),
      if_pos rfl, if_pos hc]
    have ht : toMethodName "list-channels" = "list_channels" := by decide
    rw [ht]
  · rw [discordPerformAction_eq config _ discordReadMessages kwargs (by decide),
      if_pos hv, if_pos (by decide)]
    unfold discordInjectDefaults
    rw [if_pos rfl, if_neg (by simp [hc])]
    have ht : toMethodName "read-messages" = "read_messages" := by decide
    rw [ht]
  · rw [discordPerformAction_eq config _ discordReadMentionedMessages kwargs
      (by decide), if_pos hv, if_pos (by decide)]
    unfold discordInjectDefaults
    rw [if_neg (by decide), if_pos rfl, if_neg (by simp [hc])]
    have ht : toMethodName "read-mentioned-messages" =
      "read_mentioned_messages" := by decide
    rw [ht]
  · rw [discordPerformAction_eq config _ discordReactToMessage kwargs
      (by decide), if_pos hv, if_pos (by decide)]
    unfold discordInjectDefaults
    rw [if_neg (by decide), if_neg (by decide), if_pos rfl,
      if_neg (by simp [hc])]
    have ht : toMethodName "react-to-message" = "react_to_message" := by decide
    rw [ht]
  · rw [discordPerformAction_eq config _ discordListChannels kwargs
      (by decide), if_pos hv, if_pos (by decide)]
    unfold discordInjectDefaults
    rw [if_neg (by decide), if_neg (by decide), if_neg (by decide),
      if_pos rfl, if_neg (by simp [hc])]
    have ht : toMethodName "list-channels" = "list_channels" := by decide
    rw [ht]

/-- Witness for C4: `"read-messages"` with only `"channel_id"` supplied and
`message_read_count = 7` injects `count = 7`; supplying `count = 3`
explicitly leaves the mapping unchanged. -/
theorem discord_default_injection_witness :
    discordPerformAction ⟨"srv", 7, "thumbsup"⟩ "read-messages"
        [("channel_id", Value.vStr "C1")] =
      ⟨.invoked "read_messages",
        [("channel_id", Value.vStr "C1"), ("count", Value.vInt 7)]⟩ ∧
    discordPerformAction ⟨"srv", 7, "thumbsup"⟩ "read-messages"
        [("channel_id", Value.vStr "C1"), ("count", Value.vInt 3)] =
      ⟨.invoked "read_messages",
        [("channel_id", Value.vStr "C1"), ("count", Value.vInt 3)]⟩ :=
  ⟨((discord_default_injection ⟨"srv", 7, "thumbsup"⟩
      [("channel_id", Value.vStr "C1")]).1 (by decide) (by decide)).1,
    ((discord_default_injection ⟨"srv", 7, "thumbsup"⟩
      [("channel_id", Value.vStr "C1"), ("count", Value.vInt 3)]).2.2.2.2.1
      (Value.vInt 3) (by decide) (by decide))⟩

/-- C5 (counterexample to the forwarding conjunct): GitHubConnection's
registered `"track-changes"` action accepts the argument mapping
`{"extra": "x"}` (its declared parameter set is empty, extra keys pass
validation), yet `perform_action` fails with the routing error — the
mapping is never forwarded to any operation, because no `track_changes`
method exists on the adapter. -/
theorem extra_keys_github_counterexample :
    githubTrackChanges.validate_params [("extra", Value.vStr "x")] = [] ∧
    githubPerformAction "track-changes" [("extra", Value.vStr "x")] =
      ⟨.failed (.routingError "track_changes"), [("extra", Value.vStr "x")]⟩ :=
  ⟨by decide, by decide⟩

/-- C5 (amended): keys beyond the declared parameter set never change the
validation outcome; for DiscordConnection and EternalAIConnection — whose
registered actions all resolve to operations declaring `**kwargs` — the
mapping, extra keys included, is forwarded to the operation and its call
binding succeeds; for GitHubConnection no registered action resolves to an
operation, so with or without extra keys the mapping is never forwarded
and dispatch fails with the routing error. -/
theorem extra_keys_tolerated_and_forwarded :
    (∀ (a : Action) (args extra : Args),
      (∀ p ∈ a.parameters, lookupKey extra p.name = none) →
      a.validate_params (args ++ extra) = a.validate_params args) ∧
    (∀ (config : DiscordConfig) (n : String) (a : Action) (kwargs : Args),
      lookupKey discordActions n = some a →
      a.validate_params kwargs = [] →
      ∃ final, discordPerformAction config n kwargs =
          ⟨.invoked (toMethodName n), final⟩ ∧
        (∀ k v, lookupKey kwargs k = some v → lookupKey final k = some v) ∧
        ∃ sig, lookupKey discordOpSigs (toMethodName n) = some sig ∧
          opAccepts sig final = true) ∧
    (∀ (n : String) (a : Action) (kwargs : Args),
      lookupKey eternalaiActions n = some a →
      a.validate_params kwargs = [] →
      eternalaiPerformAction n kwargs = ⟨.invoked (toMethodName n), kwargs⟩ ∧
        ∃ sig, lookupKey eternalaiOpSigs (toMethodName n) = some sig ∧
          opAccepts sig kwargs = true) ∧
    (∀ (n : String) (a : Action) (kwargs : Args),
      lookupKey githubActions n = some a →
      a.validate_params kwargs = [] →
      githubPerformAction n kwargs =
        ⟨.failed (.routingError (toMethodName n)), kwargs⟩) := by
  refine ⟨validate_params_append_extra, ?_, ?_, ?_⟩
  · intro config n a kwargs h hv
    rcases discord_registered_names n a h with
      ⟨rfl, rfl⟩ | ⟨rfl, rfl⟩ | ⟨rfl, rfl⟩ | ⟨rfl, rfl⟩ | ⟨rfl, rfl⟩ | ⟨rfl, rfl⟩
    · cases hc : lookupKey kwargs "count" with
      | none =>
          refine ⟨kwargs ++ [("count", Value.vInt config.message_read_count)],
            ?_, fun k v hkv => lookupKey_append_some _ hkv, ?_⟩
          · rw [discordPerformAction_eq config _ discordReadMessages kwargs
              (by decide), if_pos hv, if_pos (by decide)]
            unfold discordInjectDefaults
            rw [if_pos rfl, if_pos hc]
          · refine ⟨⟨["channel_id", "count"], [], true⟩, by decide, ?_⟩
            apply opAccepts_hasKwargs _ _ rfl
            intro p hp
            simp only [List.mem_cons, List.not_mem_nil, or_false] at hp
            rcases hp with rfl | rfl
            · exact lookupKey_isSome_append _
                (validate_params_nil_required_present _ _ hv
                  ⟨"channel_id", true, .str,
                    "The channel id to get messages from"⟩ (by decide) rfl)
            · rw [lookupKey_append_none _ hc, lookupKey_cons, if_pos rfl]
              rfl
      | some w =>
          refine ⟨kwargs, ?_, fun k v hkv => hkv, ?_⟩
          · rw [discordPerformAction_eq config _ discordReadMessages kwargs
              (by decide), if_pos hv, if_pos (by decide)]
            unfold discordInjectDefaults
            rw [if_pos rfl, if_neg (by simp [hc])]
          · refine ⟨⟨["channel_id", "count"], [], true⟩, by decide, ?_⟩
            apply opAccepts_hasKwargs _ _ rfl
            intro p hp
            simp only [List.mem_cons, List.not_mem_nil, or_false] at hp
            rcases hp with rfl | rfl
            · exact validate_params_nil_required_present _ _ hv
                ⟨"channel_id", true, .str,
                  "The channel id to get messages from"⟩ (by decide) rfl
            · rw [hc]; rfl
    · cases hc : lookupKey kwargs "count" with
      | none =>
          refine ⟨kwargs ++ [("count", Value.vInt config.message_read_count)],
            ?_, fun k v hkv => lookupKey_append_some _ hkv, ?_⟩
          · rw [discordPerformAction_eq config _ discordReadMentionedMessages
              kwargs (by decide), if_pos hv, if_pos (by decide)]
            unfold discordInjectDefaults
            rw [if_neg (by decide), if_pos rfl, if_pos hc]
          · refine ⟨⟨["channel_id", "count"], [], true⟩, by decide, ?_⟩
            apply opAccepts_hasKwargs _ _ rfl
            intro p hp
            simp only [List.mem_cons, List.not_mem_nil, or_false] at hp
            rcases hp with rfl | rfl
            · exact lookupKey_isSome_append _
                (validate_params_nil_required_present _ _ hv
                  ⟨"channel_id", true, .str,
                    "The channel id to get messages from"⟩ (by decide) rfl)
            · rw [lookupKey_append_none _ hc, lookupKey_cons, if_pos rfl]
              rfl
      | some w =>
          refine ⟨kwargs, ?_, fun k v hkv => hkv, ?_⟩
          · rw [discordPerformAction_eq config _ discordReadMentionedMessages
              kwargs (by decide), if_pos hv, if_pos (by decide)]
            unfold discordInjectDefaults
            rw [if_neg (by decide), if_pos rfl, if_neg (by simp [hc])]
          · refine ⟨⟨["channel_id", "count"], [], true⟩, by decide, ?_⟩
            apply opAccepts_hasKwargs _ _ rfl
            intro p hp
            simp only [List.mem_cons, List.not_mem_nil, or_false] at hp
            rcases hp with rfl | rfl
            · exact validate_params_nil_required_present _ _ hv
                ⟨"channel_id", true, .str,
                  "The channel id to get messages from"⟩ (by decide) rfl
            · rw [hc]; rfl
    · refine ⟨kwargs, ?_, fun k v hkv => hkv, ?_⟩
      · rw [discordPerformAction_eq config _ discordPostMessage kwargs
          (by decide), if_pos hv, if_pos (by decide)]
        unfold discordInjectDefaults
        rw [if_neg (by decide), if_neg (by decide), if_neg (by decide),
          if_neg (by decide)]
      · refine ⟨⟨["channel_id", "message"], [], true⟩, by decide, ?_⟩
        apply opAccepts_hasKwargs _ _ rfl
        intro p hp
        simp only [List.mem_cons, List.not_mem_nil, or_false] at hp
        rcases hp with rfl | rfl
        · exact validate_params_nil_required_present _ _ hv
            ⟨"channel_id", true, .str,
              "The channel id for the message to be posted in"⟩ (by decide) rfl
        · exact validate_params_nil_required_present _ _ hv
            ⟨"message", true, .str, "Text content of the message"⟩
            (by decide) rfl
    · refine ⟨kwargs, ?_, fun k v hkv => hkv, ?_⟩
      · rw [discordPerformAction_eq config _ discordReplyToMessage kwargs
          (by decide), if_pos hv, if_pos (by decide)]
        unfold discordInjectDefaults
        rw [if_neg (by decide), if_neg (by decide), if_neg (by decide),
          if_neg (by decide)]
      · refine ⟨⟨["channel_id", "message_id", "message"], [], true⟩,
          by decide, ?_⟩
        apply opAccepts_hasKwargs _ _ rfl
        intro p hp
        simp only [List.mem_cons, List.not_mem_nil, or_false] at hp
        rcases hp with rfl | rfl | rfl
        · exact validate_params_nil_required_present _ _ hv
            ⟨"channel_id", true, .str,
              "The channel id to get messages from"⟩ (by decide) rfl
        · exact validate_params_nil_required_present _ _ hv
            ⟨"message_id", true, .str, "ID of the message to reply to"⟩
            (by decide) rfl
        · exact validate_params_nil_required_present _ _ hv
            ⟨"message", true, .str, "Reply message content"⟩ (by decide) rfl
    · cases hc : lookupKey kwargs "emoji_name" with
      | none =>
          refine ⟨kwargs ++
              [("emoji_name", Value.vStr config.message_emoji_name)],
            ?_, fun k v hkv => lookupKey_append_some _ hkv, ?_⟩
          · rw [discordPerformAction_eq config _ discordReactToMessage kwargs
              (by decide), if_pos hv, if_pos (by decide)]
            unfold discordInjectDefaults
            rw [if_neg (by decide), if_neg (by decide), if_pos rfl, if_pos hc]
          · refine ⟨⟨["channel_id", "message_id", "emoji_name"], [], true⟩,
              by decide, ?_⟩
            apply opAccepts_hasKwargs _ _ rfl
            intro p hp
            simp only [List.mem_cons, List.not_mem_nil, or_false] at hp
            rcases hp with rfl | rfl | rfl
            · exact lookupKey_isSome_append _
                (validate_params_nil_required_present _ _ hv
                  ⟨"channel_id", true, .str,
                    "The channel id for the message to be posted in"⟩
                  (by decide) rfl)
            · exact lookupKey_isSome_append _
                (validate_params_nil_required_present _ _ hv
                  ⟨"message_id", true, .str, "ID of the message to reply to"⟩
                  (by decide) rfl)
            · rw [lookupKey_append_none _ hc, lookupKey_cons, if_pos rfl]
              rfl
      | some w =>
          refine ⟨kwargs, ?_, fun k v hkv => hkv, ?_⟩
          · rw [discordPerformAction_eq config _ discordReactToMessage kwargs
              (by decide), if_pos hv, if_pos (by decide)]
            unfold discordInjectDefaults
            rw [if_neg (by decide), if_neg (by decide), if_pos rfl,
              if_neg (by simp [hc])]
          · refine ⟨⟨["channel_id", "message_id", "emoji_name"], [], true⟩,
              by decide, ?_⟩
            apply opAccepts_hasKwargs _ _ rfl
            intro p hp
            simp only [List.mem_cons, List.not_mem_nil, or_false] at hp
            rcases hp with rfl | rfl | rfl
            · exact validate_params_nil_required_present _ _ hv
                ⟨"channel_id", true, .str,
                  "The channel id for the message to be posted in"⟩
                (by decide) rfl
            · exact validate_params_nil_required_present _ _ hv
                ⟨"message_id", true, .str, "ID of the message to reply to"⟩
                (by decide) rfl
            · rw [hc]; rfl
    · cases hc : lookupKey kwargs "server_id" with
      | none =>
          refine ⟨kwargs ++ [("server_id", Value.vStr config.server_id)],
            ?_, fun k v hkv => lookupKey_append_some _ hkv, ?_⟩
          · rw [discordPerformAction_eq config _ discordListChannels kwargs
              (by decide), if_pos hv, if_pos (by decide)]
            unfold discordInjectDefaults
            rw [if_neg (by decide), if_neg (by decide), if_neg (by decide),
              if_pos rfl, if_pos hc]
          · refine ⟨⟨["server_id"], [], true⟩, by decide, ?_⟩
            apply opAccepts_hasKwargs _ _ rfl
            intro p hp
            simp only [List.mem_cons, List.not_mem_nil, or_false] at hp
            rcases hp with rfl
            rw [lookupKey_append_none _ hc, lookupKey_cons, if_pos rfl]
            rfl
      | some w =>
          refine ⟨kwargs, ?_, fun k v hkv => hkv, ?_⟩
          · rw [discordPerformAction_eq config _ discordListChannels kwargs
              (by decide), if_pos hv, if_pos (by decide)]
            unfold discordInjectDefaults
            rw [if_neg (by decide), if_neg (by decide), if_neg (by decide),
              if_pos rfl, if_neg (by simp [hc])]
          · refine ⟨⟨["server_id"], [], true⟩, by decide, ?_⟩
            apply opAccepts_hasKwargs _ _ rfl
            intro p hp
            simp only [List.mem_cons, List.not_mem_nil, or_false] at hp
            rcases hp with rfl
            rw [hc]; rfl
  · intro n a kwargs h hv
    rcases eternalai_registered_names n a h with
      ⟨rfl, rfl⟩ | ⟨rfl, rfl⟩ | ⟨rfl, rfl⟩
    · refine ⟨?_, ⟨⟨["prompt", "system_prompt"], ["model", "chain_id"], true⟩,
        by decide, ?_⟩⟩
      · rw [eternalaiPerformAction_eq _ eternalaiGenerateTextAction kwargs
          (by decide), if_pos hv, if_pos (by decide)]
      · apply opAccepts_hasKwargs _ _ rfl
        intro p hp
        simp only [List.mem_cons, List.not_mem_nil, or_false] at hp
        rcases hp with rfl | rfl
        · exact validate_params_nil_required_present _ _ hv
            ⟨"prompt", true, .str, "The input prompt for text generation"⟩
            (by decide) rfl
        · exact validate_params_nil_required_present _ _ hv
            ⟨"system_prompt", true, .str, "System prompt to guide the model"⟩
            (by decide) rfl
    · refine ⟨?_, ⟨⟨["model"], [], true⟩, by decide, ?_⟩⟩
      · rw [eternalaiPerformAction_eq _ eternalaiCheckModel kwargs
          (by decide), if_pos hv, if_pos (by decide)]
      · apply opAccepts_hasKwargs _ _ rfl
        intro p hp
        simp only [List.mem_cons, List.not_mem_nil, or_false] at hp
        rcases hp with rfl
        exact validate_params_nil_required_present _ _ hv
          ⟨"model", true, .str, "Model name to check availability"⟩
          (by decide) rfl
    · refine ⟨?_, ⟨⟨[], [], true⟩, by decide, ?_⟩⟩
      · rw [eternalaiPerformAction_eq _ eternalaiListModels kwargs
          (by decide), if_pos hv, if_pos (by decide)]
      · apply opAccepts_hasKwargs _ _ rfl
        intro p hp
        simp at hp
  · intro n a kwargs h hv
    rw [githubPerformAction_eq n a kwargs h, if_pos hv]
    rcases github_registered_names n a h with
      ⟨rfl, rfl⟩ | ⟨rfl, rfl⟩ | ⟨rfl, rfl⟩ <;>
      · rw [if_neg (by decide)]

/-- Witness for C5: `"post-message"` with an extra `"mood"` key validates
and is forwarded with the extra key intact. -/
theorem extra_keys_tolerated_and_forwarded_witness :
    discordPostMessage.validate_params
        ([("channel_id", Value.vStr "C1"), ("message", Value.vStr "hi")] ++
          [("mood", Value.vStr "happy")]) =
      discordPostMessage.validate_params
        [("channel_id", Value.vStr "C1"), ("message", Value.vStr "hi")] ∧
    ∃ final, discordPerformAction ⟨"srv", 7, "fire"⟩ "post-message"
        [("channel_id", Value.vStr "C1"), ("message", Value.vStr "hi"),
         ("mood", Value.vStr "happy")] =
        ⟨.invoked (toMethodName "post-message"), final⟩ ∧
      (∀ k v, lookupKey [("channel_id", Value.vStr "C1"),
          ("message", Value.vStr "hi"), ("mood", Value.vStr "happy")] k =
          some v → lookupKey final k = some v) ∧
      ∃ sig, lookupKey discordOpSigs (toMethodName "post-message") =
          some sig ∧ opAccepts sig final = true :=
  ⟨extra_keys_tolerated_and_forwarded.1 discordPostMessage
      [("channel_id", Value.vStr "C1"), ("message", Value.vStr "hi")]
      [("mood", Value.vStr "happy")] (by decide),
    extra_keys_tolerated_and_forwarded.2.1 ⟨"srv", 7, "fire"⟩ "post-message"
      discordPostMessage
      [("channel_id", Value.vStr "C1"), ("message", Value.vStr "hi"),
       ("mood", Value.vStr "happy")] (by decide) (by decide)⟩

/-- C8: for every adapter, `validate_config` is pure (a total Lean
function here) and either returns the caller's mapping itself (accepted)
or fails with an error naming the first offending field in the source's
check order and its constraint.  For DiscordConnection: acceptance is
exactly required-field presence plus `message_read_count` a positive
integer and `message_emoji_name` / `server_id` non-empty strings; each
failure message names the first offending check (the presence error lists
every missing field, the first included).  For EternalAIConnection:
acceptance is exactly a present `"model"` field that is a string, and each
failure message names that field and its constraint.  GitHubConnection's
`validate_config` accepts every mapping unchanged (its body is
`return config`), so it satisfies the same return-the-mapping-or-fail
contract with no checks. -/
theorem validateConfig_contract :
    (∀ config : Args,
      discordValidateConfig config = .ok config ↔
        discordConfigOk config = true) ∧
    (∀ (config x : Args), discordValidateConfig config = .ok x →
      x = config) ∧
    (∀ config : Args, discordMissingFields config ≠ [] →
      discordValidateConfig config =
        .error ("Missing required configuration fields: " ++
          String.intercalate ", " (discordMissingFields config))) ∧
    (∀ config : Args, discordMissingFields config = [] →
      discordReadCountOk config = false →
      discordValidateConfig config =
        .error "message_read_count must be a positive integer") ∧
    (∀ config : Args, discordMissingFields config = [] →
      discordReadCountOk config = true → discordEmojiOk config = false →
      discordValidateConfig config =
        .error "message_emoji_name must be a valid string") ∧
    (∀ config : Args, discordMissingFields config = [] →
      discordReadCountOk config = true → discordEmojiOk config = true →
      discordServerIdOk config = false →
      discordValidateConfig config =
        .error "server_id must be a valid string") ∧
    (∀ config : Args,
      eternalaiValidateConfig config = .ok config ↔
        eternalaiConfigOk config = true) ∧
    (∀ (config x : Args), eternalaiValidateConfig config = .ok x →
      x = config) ∧
    (∀ config : Args, lookupKey config "model" = none →
      eternalaiValidateConfig config =
        .error ("Missing required configuration fields: " ++
          String.intercalate ", " ["model"])) ∧
    (∀ (config : Args) (v : Value), lookupKey config "model" = some v →
      pyIsStr v = false →
      eternalaiValidateConfig config = .error "model must be a string") ∧
    (∀ config : Args, githubValidateConfig config = .ok config) := by
  have hchain : ∀ config : Args, discordMissingFields config = [] →
      discordReadCountOk config = true → discordEmojiOk config = true →
      discordServerIdOk config = true →
      discordValidateConfig config = .ok config := by
    intro config h1 h2 h3 h4
    unfold discordValidateConfig
    rw [if_pos (by rw [show discordRequiredFields.filter
        (fun f => (lookupKey config f).isNone) = discordMissingFields config
        from rfl, h1]; rfl),
      if_neg ((discordReadCountOk_true_iff config).mp h2),
      if_neg ((discordEmojiOk_true_iff config).mp h3),
      if_neg ((discordServerIdOk_true_iff config).mp h4)]
  refine ⟨fun config => ?_, fun config x h => ?_, fun config h1 => ?_,
    fun config h1 h2 => ?_, fun config h1 h2 h3 => ?_,
    fun config h1 h2 h3 h4 => ?_, fun config => ?_, fun config x h => ?_,
    fun config hm => ?_, fun config v hm hs => ?_, fun config => rfl⟩
  · constructor
    · intro h
      unfold discordValidateConfig at h
      split_ifs at h with h1 h2 h3 h4
      unfold discordConfigOk
      rw [(discordReadCountOk_true_iff config).mpr h2,
        (discordEmojiOk_true_iff config).mpr h3,
        (discordServerIdOk_true_iff config).mpr h4]
      rw [show discordMissingFields config = discordRequiredFields.filter
          (fun f => (lookupKey config f).isNone) from rfl, h1]
      rfl
    · intro h
      unfold discordConfigOk at h
      rw [Bool.and_eq_true, Bool.and_eq_true, Bool.and_eq_true] at h
      obtain ⟨⟨⟨hm, hrc⟩, he⟩, hs⟩ := h
      exact hchain config (List.isEmpty_iff.mp hm) hrc he hs
  · unfold discordValidateConfig at h
    split_ifs at h with h1 h2 h3 h4
    injection h with h5
    exact h5.symm
  · unfold discordValidateConfig
    rw [if_neg (by
      rw [show discordRequiredFields.filter
        (fun f => (lookupKey config f).isNone) = discordMissingFields config
        from rfl]
      simpa [List.isEmpty_iff] using h1)]
    rfl
  · unfold discordValidateConfig
    rw [if_pos (by rw [show discordRequiredFields.filter
        (fun f => (lookupKey config f).isNone) = discordMissingFields config
        from rfl, h1]; rfl)]
    rw [if_pos (by
      by_contra hcon
      rw [(discordReadCountOk_true_iff config).mpr hcon] at h2
      simp at h2)]
  · unfold discordValidateConfig
    rw [if_pos (by rw [show discordRequiredFields.filter
        (fun f => (lookupKey config f).isNone) = discordMissingFields config
        from rfl, h1]; rfl),
      if_neg ((discordReadCountOk_true_iff config).mp h2)]
    rw [if_pos (by
      by_contra hcon
      rw [(discordEmojiOk_true_iff config).mpr hcon] at h3
      simp at h3)]
  · unfold discordValidateConfig
    rw [if_pos (by rw [show discordRequiredFields.filter
        (fun f => (lookupKey config f).isNone) = discordMissingFields config
        from rfl, h1]; rfl),
      if_neg ((discordReadCountOk_true_iff config).mp h2),
      if_neg ((discordEmojiOk_true_iff config).mp h3)]
    rw [if_pos (by
      by_contra hcon
      rw [(discordServerIdOk_true_iff config).mpr hcon] at h4
      simp at h4)]
  · have hfilter : ((["model"] : List String).filter
        (fun f => (lookupKey config f).isNone)) =
        if (lookupKey config "model").isNone = true then ["model"]
        else [] := by
      simp [List.filter_cons]
    cases hm : lookupKey config "model" with
    | none =>
        constructor
        · intro h
          unfold eternalaiValidateConfig at h
          rw [hfilter, hm] at h
          simp at h
        · intro h
          unfold eternalaiConfigOk at h
          rw [hm] at h
          simp at h
    | some v =>
        unfold eternalaiValidateConfig eternalaiConfigOk
        rw [hfilter, hm]
        cases hs : pyIsStr v with
        | true => simp [hs]
        | false => simp [hs]
  · unfold eternalaiValidateConfig at h
    split_ifs at h with h1 h2
    injection h with h5
    exact h5.symm
  · unfold eternalaiValidateConfig
    rw [show ((["model"] : List String).filter
        (fun f => (lookupKey config f).isNone)) = ["model"] from by
      simp [List.filter_cons, hm]]
    rfl
  · unfold eternalaiValidateConfig
    rw [show ((["model"] : List String).filter
        (fun f => (lookupKey config f).isNone)) = [] from by
      simp [List.filter_cons, hm]]
    rw [if_pos (show (([] : List String).isEmpty = true) from rfl), hm]
    rw [if_neg (by simp [hs])]

/-- Witness for C8: a well-formed configuration is returned unchanged; a
configuration whose `message_read_count` is the string `"5"` fails with
the message naming that field.  For EternalAIConnection, a configuration
with a string `"model"` is returned unchanged, and one whose `"model"` is
the integer `3` fails with the message naming that field. -/
theorem validateConfig_contract_witness :
    discordValidateConfig
        [("server_id", Value.vStr "s"), ("message_read_count", Value.vInt 5),
         ("message_emoji_name", Value.vStr "e")] =
      .ok [("server_id", Value.vStr "s"),
        ("message_read_count", Value.vInt 5),
        ("message_emoji_name", Value.vStr "e")] ∧
    discordValidateConfig
        [("server_id", Value.vStr "s"),
         ("message_read_count", Value.vStr "5"),
         ("message_emoji_name", Value.vStr "e")] =
      .error "message_read_count must be a positive integer" ∧
    eternalaiValidateConfig [("model", Value.vStr "eternal")] =
      .ok [("model", Value.vStr "eternal")] ∧
    eternalaiValidateConfig [("model", Value.vInt 3)] =
      .error "model must be a string" :=
  ⟨(validateConfig_contract.1
      [("server_id", Value.vStr "s"), ("message_read_count", Value.vInt 5),
       ("message_emoji_name", Value.vStr "e")]).mpr (by decide),
    validateConfig_contract.2.2.2.1
      [("server_id", Value.vStr "s"), ("message_read_count", Value.vStr "5"),
       ("message_emoji_name", Value.vStr "e")] (by decide) (by decide),
    (validateConfig_contract.2.2.2.2.2.2.1
      [("model", Value.vStr "eternal")]).mpr (by decide),
    validateConfig_contract.2.2.2.2.2.2.2.2.2.1
      [("model", Value.vInt 3)] (Value.vInt 3) (by decide) (by decide)⟩

/-- C9: every failure inside `EternalAIConnection.generate_text` — the
missing-credential `EternalAIConfigurationError` raised by `_get_client`,
the `KeyError` from a config lacking `"chain_id"`, and any collaborator
failure — is re-raised as `EternalAIAPIError` by the `except Exception`
handler wrapping the whole body; through the `"generate-text"` action
(which `perform_action` routes to `generate_text` by the
hyphen-to-underscore rule) a configuration problem is therefore never
surfaced as `EternalAIConfigurationError`. -/
theorem eternalai_generateText_failures_are_apiErrors
    (cached : Option EternalClient) (envKey envUrl : Option String)
    (config : Args) (prompt system_prompt : String)
    (model chain_id : Option String)
    (create : EternalClient → String → String → String → String →
      Except PyError Completion) :
    (∀ e, eternalaiGenerateText cached envKey envUrl config prompt
        system_prompt model chain_id create = .error e →
      ∃ m, e = .apiError m) ∧
    (cached = none → envKey = none →
      eternalaiGenerateText cached envKey envUrl config prompt system_prompt
          model chain_id create =
        .error (.apiError ("Text generation failed: " ++
          "EternalAI credentials not found in environment"))) ∧
    (∀ c, cached = some c → truthy model = true → chain_id = none →
      lookupKey config "chain_id" = none →
      eternalaiGenerateText cached envKey envUrl config prompt system_prompt
          model chain_id create =
        .error (.apiError ("Text generation failed: " ++
          "KeyError: chain_id"))) ∧
    toMethodName "generate-text" = "generate_text" ∧
    eternalaiMethods.contains "generate_text" = true := by
  refine ⟨?_, ?_, ?_, by decide, by decide⟩
  · intro e he
    unfold eternalaiGenerateText at he
    cases hb : eternalaiGenerateTextBody cached envKey envUrl config prompt
        system_prompt model chain_id create with
    | ok s => rw [hb] at he; exact absurd he (by simp)
    | error e0 =>
        rw [hb] at he
        simp only [Except.error.injEq] at he
        exact ⟨"Text generation failed: " ++ excMessage e0, he.symm⟩
  · intro hc he
    subst hc
    subst he
    rfl
  · intro c hc ht hcid hl
    subst hc
    subst hcid
    unfold eternalaiGenerateText eternalaiGenerateTextBody eternalaiGetClient
    rw [ht, hl]
    rfl

/-- Witness for C9: with no cached client and no environment key, the
configuration failure surfaces as the API error; with a cached client, an
explicit model, and no `"chain_id"` in the configuration, the `KeyError`
surfaces as the API error. -/
theorem eternalai_generateText_failures_are_apiErrors_witness :
    eternalaiGenerateText none none none [] "p" "s" none none
        (fun _ _ _ _ _ => .ok ⟨some "out"⟩) =
      .error (.apiError ("Text generation failed: " ++
        "EternalAI credentials not found in environment")) ∧
    eternalaiGenerateText (some ⟨"k", "u"⟩) none none [] "p" "s"
        (some "m") none (fun _ _ _ _ _ => .ok ⟨some "out"⟩) =
      .error (.apiError ("Text generation failed: " ++
        "KeyError: chain_id")) :=
  ⟨(eternalai_generateText_failures_are_apiErrors none none none [] "p" "s"
      none none (fun _ _ _ _ _ => .ok ⟨some "out"⟩)).2.1 rfl rfl,
    (eternalai_generateText_failures_are_apiErrors (some ⟨"k", "u"⟩) none
      none [] "p" "s" (some "m") none
      (fun _ _ _ _ _ => .ok ⟨some "out"⟩)).2.2.1 ⟨"k", "u"⟩ rfl (by decide)
      rfl rfl⟩

/-- C10: DiscordConnection's dispatcher mutates the caller-supplied
argument mapping in place (`kwargs["count"] = ...` on the caller's dict,
no copy): after a `"read-messages"` call with `"count"` absent, the
caller-visible mapping now contains the injected `"count"` entry — it is
the original mapping extended, and no longer equal to the mapping passed
in; likewise for `"emoji_name"` on `"react-to-message"` and `"server_id"`
on `"list-channels"`. -/
theorem discord_dispatch_mutates_caller_mapping (config : DiscordConfig)
    (kwargs : Args) :
    (lookupKey kwargs "count" = none →
      discordReadMessages.validate_params kwargs = [] →
      (discordPerformAction config "read-messages" kwargs).kwargsAfter =
        kwargs ++ [("count", Value.vInt config.message_read_count)] ∧
      (discordPerformAction config "read-messages" kwargs).kwargsAfter ≠
        kwargs) ∧
    (lookupKey kwargs "emoji_name" = none →
      discordReactToMessage.validate_params kwargs = [] →
      (discordPerformAction config "react-to-message" kwargs).kwargsAfter =
        kwargs ++ [("emoji_name", Value.vStr config.message_emoji_name)] ∧
      (discordPerformAction config "react-to-message" kwargs).kwargsAfter ≠
        kwargs) ∧
    (lookupKey kwargs "server_id" = none →
      discordListChannels.validate_params kwargs = [] →
      (discordPerformAction config "list-channels" kwargs).kwargsAfter =
        kwargs ++ [("server_id", Value.vStr config.server_id)] ∧
      (discordPerformAction config "list-channels" kwargs).kwargsAfter ≠
        kwargs) := by
  have hlen : ∀ (l : Args) (x : String × Value), l ++ [x] ≠ l := by
    intro l x h
    have := congrArg List.length h
    simp at this
  refine ⟨fun hc hv => ?_, fun hc hv => ?_, fun hc hv => ?_⟩
  · have houtcome :
        discordPerformAction config "read-messages" kwargs =
          ⟨.invoked "read_messages",
            kwargs ++ [("count", Value.vInt config.message_read_count)]⟩ := by
      rw [discordPerformAction_eq config _ discordReadMessages kwargs
        (by decide), if_pos hv, if_pos (by decide)]
      unfold discordInjectDefaults
      rw [if_pos rfl, if_pos hc]
      have ht : toMethodName "read-messages" = "read_messages" := by decide
      rw [ht]
    rw [houtcome]
    exact ⟨rfl, hlen kwargs _⟩
  · have houtcome :
        discordPerformAction config "react-to-message" kwargs =
          ⟨.invoked "react_to_message",
            kwargs ++ [("emoji_name", Value.vStr config.message_emoji_name)]⟩ := by
      rw [discordPerformAction_eq config _ discordReactToMessage kwargs
        (by decide), if_pos hv, if_pos (by decide)]
      unfold discordInjectDefaults
      rw [if_neg (by decide), if_neg (by decide), if_pos rfl, if_pos hc]
      have ht : toMethodName "react-to-message" = "react_to_message" := by
        decide
      rw [ht]
    rw [houtcome]
    exact ⟨rfl, hlen kwargs _⟩
  · have houtcome :
        discordPerformAction config "list-channels" kwargs =
          ⟨.invoked "list_channels",
            kwargs ++ [("server_id", Value.vStr config.server_id)]⟩ := by
      rw [discordPerformAction_eq config _ discordListChannels kwargs
        (by decide), if_pos hv, if_pos (by decide)]
      unfold discordInjectDefaults
      rw [if_neg (by decide), if_neg (by decide), if_neg (by decide),
        if_pos rfl, if_pos hc]
      have ht : toMethodName "list-channels" = "list_channels" := by decide
      rw [ht]
    rw [houtcome]
    exact ⟨rfl, hlen kwargs _⟩

/-- Witness for C10: after `"react-to-message"` with `"emoji_name"` absent
and `message_emoji_name = "fire"`, the caller's mapping differs from what
was passed in (it gained the injected entry). -/
theorem discord_dispatch_mutates_caller_mapping_witness :
    (discordPerformAction ⟨"srv", 7, "fire"⟩ "react-to-message"
        [("channel_id", Value.vStr "C1"),
         ("message_id", Value.vStr "M1")]).kwargsAfter =
      [("channel_id", Value.vStr "C1"), ("message_id", Value.vStr "M1"),
       ("emoji_name", Value.vStr "fire")] ∧
    (discordPerformAction ⟨"srv", 7, "fire"⟩ "react-to-message"
        [("channel_id", Value.vStr "C1"),
         ("message_id", Value.vStr "M1")]).kwargsAfter ≠
      [("channel_id", Value.vStr "C1"), ("message_id", Value.vStr "M1")] :=
  (discord_dispatch_mutates_caller_mapping ⟨"srv", 7, "fire"⟩
    [("channel_id", Value.vStr "C1"), ("message_id", Value.vStr "M1")]).2.1
    (by decide) (by decide)

end ZerePy
